import Mathlib

/-!
Verification development for `generate-og-images.py`, a script that renders
two 1200×630 social-preview images: a diagonal gradient background, decorative
shapes, and three lines of horizontally centered text, then writes both files.

The Python source is shallowly embedded below: colors are parsed from
`#rrggbb` strings exactly as `int(s[1:3], 16)` does on two-character slices,
Python's formula `int(c1 + (c2 - c1) * (x + y) / (w + h))` is modelled over
exact rationals with truncation toward zero, the per-pixel double loop becomes
a column-major list of rows, the drawing calls become an ordered list of draw
operations over the gradient canvas (text measurement, which depends on the
font files present at run time, is a parameter), and the top-level script
becomes a trace of console and filesystem events.
-/

namespace OGImages

/-- Value of one hexadecimal digit, as accepted by Python's `int(s, 16)`
for the digit characters `0-9`, `a-f`, `A-F`. -/
def hexDigit (c : Char) : Option ℕ :=
  if '0' ≤ c ∧ c ≤ '9' then some (c.toNat - '0'.toNat)
  else if 'a' ≤ c ∧ c ≤ 'f' then some (c.toNat - 'a'.toNat + 10)
  else if 'A' ≤ c ∧ c ≤ 'F' then some (c.toNat - 'A'.toNat + 10)
  else none

/-- Model of `int(s, 16)` applied to a two-character slice: both characters must be
hex digits, and the value is `16*d₁ + d₂`.  Any other shape raises in Python,
modelled as `none`. -/
def hexPair : List Char → Option ℕ
  | [c, d] =>
      match hexDigit c, hexDigit d with
      | some u, some v => some (16 * u + v)
      | _, _ => none
  | _ => none

/-- Python slice `s[a:b]` on a string, as a list of characters. -/
def slice (s : String) (a b : ℕ) : List Char :=
  (s.data.drop a).take (b - a)

/-- The color parse done inside the gradient loop:
`int(color[1:3],16), int(color[3:5],16), int(color[5:7],16)`. -/
def parseColor (s : String) : Option (ℕ × ℕ × ℕ) :=
  match hexPair (slice s 1 3), hexPair (slice s 3 5), hexPair (slice s 5 7) with
  | some r, some g, some b => some (r, g, b)
  | _, _, _ => none

/-- Python's `int()` applied to a real value: truncation toward zero. -/
def pytrunc (q : ℚ) : ℤ :=
  if 0 ≤ q then ⌊q⌋ else -⌊-q⌋

/-- The diagonal-gradient ratio `(x + y) / (width + height)` computed at
pixel `(x, y)`. -/
def ratio (x y width height : ℕ) : ℚ :=
  ((x : ℚ) + (y : ℚ)) / ((width : ℚ) + (height : ℚ))

/-- One channel of the gradient: `int(c1 + (c2 - c1) * ratio)`. -/
def gradChannel (c1 c2 : ℕ) (r : ℚ) : ℤ :=
  pytrunc ((c1 : ℚ) + ((c2 : ℚ) - (c1 : ℚ)) * r)

/-- The RGB triple assigned to `pixels[x, y]` in the gradient loop. -/
def gradPixel (p1 p2 : ℕ × ℕ × ℕ) (x y width height : ℕ) : ℤ × ℤ × ℤ :=
  (gradChannel p1.1 p2.1 (ratio x y width height),
   gradChannel p1.2.1 p2.2.1 (ratio x y width height),
   gradChannel p1.2.2 p2.2.2 (ratio x y width height))

/-- An in-memory raster: size metadata plus pixel data addressed as
`pix[x][y]` (column-major, matching the `for x: for y:` loop order). -/
structure Canvas where
  width : ℕ
  height : ℕ
  pix : List (List (ℤ × ℤ × ℤ))

/-- The function `create_gradient_background(width, height, color1, color2)`: parse the two
hex colors (a malformed color raises, modelled as `none`) and fill every pixel
with the interpolated triple. -/
def create_gradient_background (width height : ℕ) (color1 color2 : String) :
    Option Canvas :=
  match parseColor color1, parseColor color2 with
  | some p1, some p2 =>
      some { width := width, height := height,
             pix := (List.range width).map fun x =>
               (List.range height).map fun y => gradPixel p1 p2 x y width height }
  | _, _ => none

/-- The canvas built by the gradient loop for already-parsed colors; the
value of `create_gradient_background` on the success path. -/
def gradientCanvas (w h : ℕ) (p1 p2 : ℕ × ℕ × ℕ) : Canvas :=
  { width := w, height := h,
    pix := (List.range w).map fun x =>
      (List.range h).map fun y => gradPixel p1 p2 x y w h }

/-- Read pixel `(x, y)` of a canvas (out-of-range reads default to black;
the theorems below only use in-range coordinates). -/
def pixelAt (c : Canvas) (x y : ℕ) : ℤ × ℤ × ℤ :=
  (c.pix.getD x []).getD y (0, 0, 0)

/-- Read pixel `(x, y)` through the `Option` returned by the renderer. -/
def pixelAtO (oc : Option Canvas) (x y : ℕ) : ℤ × ℤ × ℤ :=
  match oc with
  | some c => pixelAt c x y
  | none => (0, 0, 0)

/-- Brand color constants from the module header. -/
def DARK_BG : String := "#0f0f23"

def ACCENT_PURPLE : String := "#8b5cf6"

def ACCENT_CYAN : String := "#06b6d4"

def WHITE : String := "#ffffff"

def LIGHT_GRAY : String := "#e5e7eb"

/-- Fixed image width. -/
def WIDTH : ℕ := 1200

/-- Fixed image height. -/
def HEIGHT : ℕ := 630

/-- A font handle: either a truetype font loaded from a path at a point size,
or the built-in bitmap font from `ImageFont.load_default()`. -/
inductive Font
  | truetype (path : String) (size : ℕ)
  | builtin
deriving DecidableEq

/-- The try/except font block: when loading succeeds all three truetype fonts
are used; when it fails (missing font file) all three fall back to the
default font.  Whether loading succeeds is an environment fact, passed in
as `fontsOk`. -/
def loadFonts (fontsOk : Bool) (boldSize regSize1 regSize2 : ℕ) :
    Font × Font × Font :=
  if fontsOk then
    (Font.truetype "/usr/share/fonts/truetype/dejavu/DejaVuSans-Bold.ttf" boldSize,
     Font.truetype "/usr/share/fonts/truetype/dejavu/DejaVuSans.ttf" regSize1,
     Font.truetype "/usr/share/fonts/truetype/dejavu/DejaVuSans.ttf" regSize2)
  else (Font.builtin, Font.builtin, Font.builtin)

/-- A drawing call recorded against the canvas, in program order. -/
inductive DrawOp
  | ellipse (box : (ℤ × ℤ) × (ℤ × ℤ)) (outline : String) (strokeWidth : ℕ)
  | rectangle (box : (ℤ × ℤ) × (ℤ × ℤ)) (outline : String) (strokeWidth : ℕ)
  | text (pos : ℚ × ℚ) (str : String) (fill : String) (font : Font)
deriving DecidableEq

/-- A gradient canvas together with the drawing calls applied to it.
`ImageDraw` mutates pixel contents only; the image size never changes. -/
structure ComposedImage where
  base : Canvas
  ops : List DrawOp

/-- The drawing calls of `create_og_image`, in order: decorative ellipse,
then title, subtitle and tagline, each horizontally centered using the
measured text width `textbbox[2] - textbbox[0]` under the font actually
loaded.  `measure` is the text-width metric of the environment's fonts. -/
def og_ops (fontsOk : Bool) (measure : Font → String → ℕ) : List DrawOp :=
  let fonts := loadFonts fontsOk 90 48 36
  let circle_radius : ℤ := 120
  let title := "JustLayMe"
  let title_width := measure fonts.1 title
  let subtitle := "Unfiltered AI Conversations"
  let subtitle_width := measure fonts.2.1 subtitle
  let tagline := "Chat Without Restrictions"
  let tagline_width := measure fonts.2.2 tagline
  [DrawOp.ellipse (((WIDTH : ℤ) - circle_radius * 2 - 50,
                    (HEIGHT : ℤ) - circle_radius * 2 - 30),
                   ((WIDTH : ℤ) - 50, (HEIGHT : ℤ) - 30)) ACCENT_PURPLE 3,
   DrawOp.text (((WIDTH : ℚ) - (title_width : ℚ)) / 2, 150) title WHITE fonts.1,
   DrawOp.text (((WIDTH : ℚ) - (subtitle_width : ℚ)) / 2, 280) subtitle
     ACCENT_CYAN fonts.2.1,
   DrawOp.text (((WIDTH : ℚ) - (tagline_width : ℚ)) / 2, 370) tagline
     LIGHT_GRAY fonts.2.2]

/-- The function `create_og_image()`: gradient from `DARK_BG` to `ACCENT_CYAN`, then the
OG drawing calls. -/
def create_og_image (fontsOk : Bool) (measure : Font → String → ℕ) :
    Option ComposedImage :=
  (create_gradient_background WIDTH HEIGHT DARK_BG ACCENT_CYAN).map fun img =>
    { base := img, ops := og_ops fontsOk measure }

/-- The drawing calls of `create_twitter_image`, in order: decorative
rectangle, then title, subtitle and tagline, horizontally centered. -/
def twitter_ops (fontsOk : Bool) (measure : Font → String → ℕ) : List DrawOp :=
  let fonts := loadFonts fontsOk 85 42 32
  let title := "JustLayMe"
  let title_width := measure fonts.1 title
  let subtitle := "Unfiltered AI Conversations"
  let subtitle_width := measure fonts.2.1 subtitle
  let tagline := "Chat Without Restrictions"
  let tagline_width := measure fonts.2.2 tagline
  [DrawOp.rectangle ((50, 50), (100, 100)) ACCENT_PURPLE 3,
   DrawOp.text (((WIDTH : ℚ) - (title_width : ℚ)) / 2, 120) title WHITE fonts.1,
   DrawOp.text (((WIDTH : ℚ) - (subtitle_width : ℚ)) / 2, 250) subtitle
     ACCENT_PURPLE fonts.2.1,
   DrawOp.text (((WIDTH : ℚ) - (tagline_width : ℚ)) / 2, 340) tagline
     WHITE fonts.2.2]

/-- The function `create_twitter_image()`: gradient from `DARK_BG` to `ACCENT_PURPLE`,
then the Twitter drawing calls. -/
def create_twitter_image (fontsOk : Bool) (measure : Font → String → ℕ) :
    Option ComposedImage :=
  (create_gradient_background WIDTH HEIGHT DARK_BG ACCENT_PURPLE).map fun img =>
    { base := img, ops := twitter_ops fontsOk measure }

/-- One observable step of the script: a console print, the in-memory
generation of one of the two images, or a file save. -/
inductive Event
  | msg (s : String)
  | generateImage (which : String)
  | saveFile (path : String) (format : String) (quality : ℕ)
deriving DecidableEq

/-- The hardcoded output directory of `main()`. -/
def output_dir : String := "/home/fastl/JustLayMe-react/public"

/-- Output path `os.path.join(output_dir, "og-image.jpg")`. -/
def og_path : String := output_dir ++ "/og-image.jpg"

/-- Output path `os.path.join(output_dir, "twitter-image.jpg")`. -/
def twitter_path : String := output_dir ++ "/twitter-image.jpg"

/-- The straight-line event trace of `main()`: the OG image is generated and
saved, then the Twitter image is generated and saved, with the prints of the
source interleaved in program order. -/
def main_events : List Event :=
  [Event.msg "Generating OG and Twitter Card images...",
   Event.generateImage "og",
   Event.saveFile og_path "JPEG" 90,
   Event.msg ("Created: " ++ og_path),
   Event.generateImage "twitter",
   Event.saveFile twitter_path "JPEG" 90,
   Event.msg ("Created: " ++ twitter_path),
   Event.msg "\nImages generated successfully!",
   Event.msg "Dimensions: 1200x630 pixels",
   Event.msg "Format: JPEG (90% quality)",
   Event.msg "\nAdd to your HTML head:",
   Event.msg "  <meta property=\"og:image\" content=\"https://yourdomain.com/og-image.jpg\" />",
   Event.msg "  <meta property=\"og:image:width\" content=\"1200\" />",
   Event.msg "  <meta property=\"og:image:height\" content=\"630\" />",
   Event.msg "  <meta name=\"twitter:image\" content=\"https://yourdomain.com/twitter-image.jpg\" />"]

/-- The trace of the module-level `except ImportError` handler: remediation
prints only, no rendering and no file output. -/
def pil_missing_events : List Event :=
  [Event.msg "Error: PIL (Pillow) is not installed.",
   Event.msg "\nTo create the images, install Pillow:",
   Event.msg "  pip install Pillow",
   Event.msg "\nOr use the included specification document to create images manually."]

/-- Outcome of one run of the script: process exit status and the ordered
trace of observable events. -/
structure ProgResult where
  exitCode : ℕ
  events : List Event

/-- The whole script: if PIL imports, `main()` runs to completion and the
process exits normally; on `ImportError` the handler prints remediation
instructions and calls `exit(1)`. -/
def program (pilAvailable : Bool) : ProgResult :=
  if pilAvailable then { exitCode := 0, events := main_events }
  else { exitCode := 1, events := pil_missing_events }

/-- Recognizes file-output events. -/
def isSave : Event → Bool
  | Event.saveFile _ _ _ => true
  | _ => false

/-- Recognizes image-generation events. -/
def isRender : Event → Bool
  | Event.generateImage _ => true
  | _ => false

/-- Modelled from the spec's words (testable property 1), for comparison with
the code's truncation: `round(C1 + (C2-C1)*(x+y)/(W+H))` clamped to
`[0,255]`. -/
def specRoundClamp (c1 c2 : ℕ) (r : ℚ) : ℤ :=
  max 0 (min 255 (round ((c1 : ℚ) + ((c2 : ℚ) - (c1 : ℚ)) * r)))

theorem getD_map_range {α : Type} (f : ℕ → α) (n i : ℕ) (h : i < n) (d : α) :
    ((List.range n).map f).getD i d = f i := by
  rw [List.getD_eq_getElem?_getD, List.getElem?_map, List.getElem?_range h]
  rfl

theorem pixelAt_create (width height x y : ℕ) (color1 color2 : String)
    (p1 p2 : ℕ × ℕ × ℕ)
    (h1 : parseColor color1 = some p1) (h2 : parseColor color2 = some p2)
    (hx : x < width) (hy : y < height) :
    pixelAtO (create_gradient_background width height color1 color2) x y =
      gradPixel p1 p2 x y width height := by
  unfold create_gradient_background
  rw [h1, h2]
  unfold pixelAtO pixelAt
  simp only
  rw [getD_map_range _ width x hx, getD_map_range _ height y hy]

theorem char_toNat_le (c d : Char) (h : c ≤ d) : c.toNat ≤ d.toNat := by
  simp [Char.le_def] at h
  exact h

theorem hexDigit_le (c : Char) (n : ℕ) (h : hexDigit c = some n) : n ≤ 15 := by
  unfold hexDigit at h
  split_ifs at h with h1 h2 h3
  · cases h
    have hb := char_toNat_le c '9' h1.2
    rw [show ('9').toNat = 57 from rfl] at hb
    rw [show ('0').toNat = 48 from rfl]
    omega
  · cases h
    have hb := char_toNat_le c 'f' h2.2
    rw [show ('f').toNat = 102 from rfl] at hb
    rw [show ('a').toNat = 97 from rfl]
    omega
  · cases h
    have hb := char_toNat_le c 'F' h3.2
    rw [show ('F').toNat = 70 from rfl] at hb
    rw [show ('A').toNat = 65 from rfl]
    omega

theorem hexPair_le (l : List Char) (n : ℕ) (h : hexPair l = some n) : n ≤ 255 := by
  rcases l with _ | ⟨c, l⟩
  · simp [hexPair] at h
  rcases l with _ | ⟨d, l⟩
  · simp [hexPair] at h
  rcases l with _ | ⟨e, l⟩
  · have h' : (match hexDigit c, hexDigit d with
        | some u, some v => some (16 * u + v)
        | _, _ => none) = some n := h
    cases hc : hexDigit c with
    | none => rw [hc] at h'; simp at h'
    | some u =>
      cases hd : hexDigit d with
      | none => rw [hc, hd] at h'; simp at h'
      | some v =>
        rw [hc, hd] at h'
        have huv : 16 * u + v = n := Option.some.inj h'
        have hu := hexDigit_le c u hc
        have hv := hexDigit_le d v hd
        omega
  · simp [hexPair] at h

theorem parseColor_le (s : String) (r g b : ℕ)
    (h : parseColor s = some (r, g, b)) : r ≤ 255 ∧ g ≤ 255 ∧ b ≤ 255 := by
  unfold parseColor at h
  cases h1 : hexPair (slice s 1 3) with
  | none => rw [h1] at h; simp at h
  | some rv =>
    cases h2 : hexPair (slice s 3 5) with
    | none => rw [h1, h2] at h; simp at h
    | some gv =>
      cases h3 : hexPair (slice s 5 7) with
      | none => rw [h1, h2, h3] at h; simp at h
      | some bv =>
        rw [h1, h2, h3] at h
        simp only [Option.some.injEq, Prod.mk.injEq] at h
        obtain ⟨hr, hg, hb⟩ := h
        subst hr; subst hg; subst hb
        exact ⟨hexPair_le _ _ h1, hexPair_le _ _ h2, hexPair_le _ _ h3⟩

theorem pytrunc_mono (a b : ℚ) (hab : a ≤ b) : pytrunc a ≤ pytrunc b := by
  unfold pytrunc
  split_ifs with h1 h2 h2
  · exact Int.floor_le_floor hab
  · exact absurd (le_trans h1 hab) h2
  · have ha : 0 < -a := by linarith
    have hfa : 0 ≤ ⌊-a⌋ := Int.floor_nonneg.mpr (le_of_lt ha)
    have hb : 0 ≤ ⌊b⌋ := Int.floor_nonneg.mpr h2
    omega
  · have hne : -b ≤ -a := by linarith
    have := Int.floor_le_floor hne
    omega

theorem pytrunc_eq_floor (q : ℚ) (h : 0 ≤ q) : pytrunc q = ⌊q⌋ := if_pos h

theorem pytrunc_natCast (n : ℕ) : pytrunc (n : ℚ) = n := by
  rw [pytrunc_eq_floor _ (by positivity), Int.floor_natCast]

theorem ratio_nonneg (x y w h : ℕ) : 0 ≤ ratio x y w h := by
  unfold ratio
  positivity

theorem ratio_lt_one (x y w h : ℕ) (hx : x < w) (hy : y < h) :
    ratio x y w h < 1 := by
  unfold ratio
  have hw : (0 : ℚ) < (w : ℚ) + (h : ℚ) := by
    have h1 : (1 : ℚ) ≤ (w : ℚ) := by exact_mod_cast Nat.one_le_iff_ne_zero.mpr (by omega)
    have h2 : (0 : ℚ) ≤ (h : ℚ) := by positivity
    linarith
  rw [div_lt_one hw]
  have hx' : (x : ℚ) < (w : ℚ) := by exact_mod_cast hx
  have hy' : (y : ℚ) < (h : ℚ) := by exact_mod_cast hy
  linarith

theorem ratio_mono (x y x' y' w h : ℕ) (hs : x + y ≤ x' + y') :
    ratio x y w h ≤ ratio x' y' w h := by
  unfold ratio
  have hnum : (x : ℚ) + (y : ℚ) ≤ (x' : ℚ) + (y' : ℚ) := by exact_mod_cast hs
  exact div_le_div_of_nonneg_right hnum (by positivity)

theorem ratio_zero (w h : ℕ) : ratio 0 0 w h = 0 := by
  unfold ratio
  norm_num

theorem gradChannel_nonneg_le (c1 c2 : ℕ) (hc1 : c1 ≤ 255) (hc2 : c2 ≤ 255)
    (r : ℚ) (hr0 : 0 ≤ r) (hr1 : r < 1) :
    0 ≤ gradChannel c1 c2 r ∧ gradChannel c1 c2 r ≤ 255 := by
  unfold gradChannel
  set v : ℚ := (c1 : ℚ) + ((c2 : ℚ) - (c1 : ℚ)) * r with hv
  have hc1q : (c1 : ℚ) ≤ 255 := by exact_mod_cast hc1
  have hc2q : (c2 : ℚ) ≤ 255 := by exact_mod_cast hc2
  have hc1n : (0 : ℚ) ≤ (c1 : ℚ) := by positivity
  have hc2n : (0 : ℚ) ≤ (c2 : ℚ) := by positivity
  have hv0 : 0 ≤ v := by
    rcases le_total (c1 : ℚ) (c2 : ℚ) with hle | hle
    · nlinarith
    · nlinarith
  have hv255 : v ≤ 255 := by
    rcases le_total (c1 : ℚ) (c2 : ℚ) with hle | hle
    · nlinarith
    · nlinarith
  rw [pytrunc_eq_floor v hv0]
  constructor
  · exact Int.floor_nonneg.mpr hv0
  · have hfl : (⌊v⌋ : ℚ) ≤ v := Int.floor_le v
    have : (⌊v⌋ : ℚ) ≤ 255 := le_trans hfl hv255
    exact_mod_cast this

theorem gradChannel_mono_up (c1 c2 : ℕ) (hc : c1 ≤ c2) (r r' : ℚ) (hr : r ≤ r') :
    gradChannel c1 c2 r ≤ gradChannel c1 c2 r' := by
  apply pytrunc_mono
  have hd : (0 : ℚ) ≤ (c2 : ℚ) - (c1 : ℚ) := by
    have : (c1 : ℚ) ≤ (c2 : ℚ) := by exact_mod_cast hc
    linarith
  nlinarith

theorem gradChannel_mono_down (c1 c2 : ℕ) (hc : c2 ≤ c1) (r r' : ℚ) (hr : r ≤ r') :
    gradChannel c1 c2 r' ≤ gradChannel c1 c2 r := by
  apply pytrunc_mono
  have hd : (c2 : ℚ) - (c1 : ℚ) ≤ 0 := by
    have : (c2 : ℚ) ≤ (c1 : ℚ) := by exact_mod_cast hc
    linarith
  nlinarith

theorem gradChannel_zero (c1 c2 : ℕ) : gradChannel c1 c2 0 = c1 := by
  unfold gradChannel
  rw [mul_zero, add_zero, pytrunc_natCast]

theorem clamp_eq_self (v : ℤ) (h0 : 0 ≤ v) (h255 : v ≤ 255) :
    max 0 (min 255 v) = v := by
  rw [min_eq_right h255, max_eq_right h0]

/-- C1: for every positive width and height, colors given as #rrggbb hex
strings, and pixel (x, y) inside the canvas, the canvas produced by
create_gradient_background holds, per channel, the value
c1 + (c2 - c1) * (x + y)/(W + H) truncated to an integer. -/
theorem C1_gradient_formula (W H : ℕ) (hW : 0 < W) (hH : 0 < H)
    (c1s c2s : String) (r1 g1 b1 r2 g2 b2 : ℕ)
    (h1 : parseColor c1s = some (r1, g1, b1))
    (h2 : parseColor c2s = some (r2, g2, b2))
    (x y : ℕ) (hx : x < W) (hy : y < H) :
    pixelAtO (create_gradient_background W H c1s c2s) x y =
      (pytrunc ((r1 : ℚ) + ((r2 : ℚ) - (r1 : ℚ)) * (((x : ℚ) + (y : ℚ)) / ((W : ℚ) + (H : ℚ)))),
       pytrunc ((g1 : ℚ) + ((g2 : ℚ) - (g1 : ℚ)) * (((x : ℚ) + (y : ℚ)) / ((W : ℚ) + (H : ℚ)))),
       pytrunc ((b1 : ℚ) + ((b2 : ℚ) - (b1 : ℚ)) * (((x : ℚ) + (y : ℚ)) / ((W : ℚ) + (H : ℚ))))) := by
  rw [pixelAt_create W H x y c1s c2s _ _ h1 h2 hx hy]
  rfl

/-- Witness for C1 at a concrete 2×2 canvas from black to white. -/
theorem C1_gradient_formula_witness :
    pixelAtO (create_gradient_background 2 2 "#000000" "#ffffff") 0 1 =
      (pytrunc ((0 : ℚ) + ((255 : ℚ) - (0 : ℚ)) * ((((0 : ℕ) : ℚ) + ((1 : ℕ) : ℚ)) / (((2 : ℕ) : ℚ) + ((2 : ℕ) : ℚ)))),
       pytrunc ((0 : ℚ) + ((255 : ℚ) - (0 : ℚ)) * ((((0 : ℕ) : ℚ) + ((1 : ℕ) : ℚ)) / (((2 : ℕ) : ℚ) + ((2 : ℕ) : ℚ)))),
       pytrunc ((0 : ℚ) + ((255 : ℚ) - (0 : ℚ)) * ((((0 : ℕ) : ℚ) + ((1 : ℕ) : ℚ)) / (((2 : ℕ) : ℚ) + (((2 : ℕ)) : ℚ))))) := by
  have h := C1_gradient_formula 2 2 (by decide) (by decide) "#000000" "#ffffff"
    0 0 0 255 255 255 (by decide) (by decide) 0 1 (by decide) (by decide)
  simpa using h

/-- C3: at the fixed 1200×630 size, the gradient ratio (x+y)/(W+H) lies in
[0, 1) for every in-range pixel; it never reaches 1, even at the far
corner. -/
theorem C3_ratio_bounds (x y : ℕ) (hx : x < 1200) (hy : y < 630) :
    0 ≤ ratio x y 1200 630 ∧ ratio x y 1200 630 < 1 :=
  ⟨ratio_nonneg x y 1200 630, ratio_lt_one x y 1200 630 hx hy⟩

/-- Witness for C3 at the far corner (1199, 629). -/
theorem C3_ratio_bounds_witness :
    0 ≤ ratio 1199 629 1200 630 ∧ ratio 1199 629 1200 630 < 1 :=
  C3_ratio_bounds 1199 629 (by norm_num) (by norm_num)

/-- C2 counterexample: at the program's 1200×630 canvas from DARK_BG to
ACCENT_CYAN, pixel (6, 0) has green channel 15 (truncation of 15.547...),
while the claimed rounded-and-clamped value is 16: the code truncates, it
does not round. -/
theorem C2_round_counterexample :
    (pixelAtO (create_gradient_background 1200 630 DARK_BG ACCENT_CYAN) 6 0).2.1 = 15 ∧
    specRoundClamp 15 182 (ratio 6 0 1200 630) = 16 ∧
    (pixelAtO (create_gradient_background 1200 630 DARK_BG ACCENT_CYAN) 6 0).2.1 ≠
      specRoundClamp 15 182 (ratio 6 0 1200 630) := by
  have hpx : pixelAtO (create_gradient_background 1200 630 DARK_BG ACCENT_CYAN) 6 0 =
      gradPixel (15, 15, 35) (6, 182, 212) 6 0 1200 630 :=
    pixelAt_create 1200 630 6 0 _ _ _ _ (by decide) (by decide) (by norm_num) (by norm_num)
  have h15 : gradChannel 15 182 (ratio 6 0 1200 630) = 15 := by
    unfold gradChannel ratio pytrunc
    norm_num
  have h16 : specRoundClamp 15 182 (ratio 6 0 1200 630) = 16 := by
    unfold specRoundClamp ratio
    norm_num [round_eq]
  refine ⟨?_, h16, ?_⟩
  · rw [hpx]
    exact h15
  · rw [hpx, h16]
    dsimp only [gradPixel]
    rw [h15]
    decide

/-- C2 (amended): for all valid pixel coordinates the gradient channel value
equals the TRUNCATION (not the rounding) of c1 + (c2 - c1)*(x+y)/(W+H),
clamped to [0, 255] (the clamp is a no-op because the value is already in
range), and pixel (0, 0) equals color1 exactly. -/
theorem C2_trunc_clamp_corner (W H : ℕ) (hW : 0 < W) (hH : 0 < H)
    (c1s c2s : String) (r1 g1 b1 r2 g2 b2 : ℕ)
    (h1 : parseColor c1s = some (r1, g1, b1))
    (h2 : parseColor c2s = some (r2, g2, b2))
    (x y : ℕ) (hx : x < W) (hy : y < H) :
    pixelAtO (create_gradient_background W H c1s c2s) x y =
      (max 0 (min 255 (pytrunc ((r1 : ℚ) + ((r2 : ℚ) - (r1 : ℚ)) * ratio x y W H))),
       max 0 (min 255 (pytrunc ((g1 : ℚ) + ((g2 : ℚ) - (g1 : ℚ)) * ratio x y W H))),
       max 0 (min 255 (pytrunc ((b1 : ℚ) + ((b2 : ℚ) - (b1 : ℚ)) * ratio x y W H)))) ∧
    pixelAtO (create_gradient_background W H c1s c2s) 0 0 =
      ((r1 : ℤ), (g1 : ℤ), (b1 : ℤ)) := by
  obtain ⟨hr1, hg1, hb1⟩ := parseColor_le _ _ _ _ h1
  obtain ⟨hr2, hg2, hb2⟩ := parseColor_le _ _ _ _ h2
  have hr0 := ratio_nonneg x y W H
  have hrlt := ratio_lt_one x y W H hx hy
  constructor
  · rw [pixelAt_create W H x y c1s c2s _ _ h1 h2 hx hy]
    dsimp only [gradPixel]
    have e1 := gradChannel_nonneg_le r1 r2 hr1 hr2 _ hr0 hrlt
    have e2 := gradChannel_nonneg_le g1 g2 hg1 hg2 _ hr0 hrlt
    have e3 := gradChannel_nonneg_le b1 b2 hb1 hb2 _ hr0 hrlt
    simp only [gradChannel] at e1 e2 e3 ⊢
    rw [clamp_eq_self _ e1.1 e1.2, clamp_eq_self _ e2.1 e2.2, clamp_eq_self _ e3.1 e3.2]
  · rw [pixelAt_create W H 0 0 c1s c2s _ _ h1 h2 hW hH]
    dsimp only [gradPixel]
    rw [ratio_zero, gradChannel_zero, gradChannel_zero, gradChannel_zero]

/-- Witness for C2 (amended) at a concrete 2×2 canvas from black to white. -/
theorem C2_trunc_clamp_corner_witness :
    pixelAtO (create_gradient_background 2 2 "#000000" "#ffffff") 0 1 =
      (max 0 (min 255 (pytrunc ((0 : ℚ) + ((255 : ℚ) - (0 : ℚ)) * ratio 0 1 2 2))),
       max 0 (min 255 (pytrunc ((0 : ℚ) + ((255 : ℚ) - (0 : ℚ)) * ratio 0 1 2 2))),
       max 0 (min 255 (pytrunc ((0 : ℚ) + ((255 : ℚ) - (0 : ℚ)) * ratio 0 1 2 2)))) ∧
    pixelAtO (create_gradient_background 2 2 "#000000" "#ffffff") 0 0 =
      ((0 : ℤ), (0 : ℤ), (0 : ℤ)) := by
  have h := C2_trunc_clamp_corner 2 2 (by decide) (by decide) "#000000" "#ffffff"
    0 0 0 255 255 255 (by decide) (by decide) 0 1 (by decide) (by decide)
  simpa using h

/-- C8: the gradient renderer is a pure function of its inputs: two
evaluations at equal inputs give canvases that agree at every pixel. -/
theorem C8_deterministic (w h w' h' : ℕ) (c1 c2 c1' c2' : String) (x y : ℕ)
    (hw : w = w') (hh : h = h') (hc1 : c1 = c1') (hc2 : c2 = c2') :
    pixelAtO (create_gradient_background w h c1 c2) x y =
      pixelAtO (create_gradient_background w' h' c1' c2') x y := by
  subst hw
  subst hh
  subst hc1
  subst hc2
  rfl

/-- Witness for C8 at concrete equal inputs. -/
theorem C8_deterministic_witness :
    pixelAtO (create_gradient_background 2 2 "#000000" "#ffffff") 0 1 =
      pixelAtO (create_gradient_background 2 2 "#000000" "#ffffff") 0 1 :=
  C8_deterministic 2 2 2 2 "#000000" "#ffffff" "#000000" "#ffffff" 0 1
    rfl rfl rfl rfl

/-- C9: with both colors parsed from valid #rrggbb strings, every channel
value written by the gradient loop already lies in [0, 255], with no
explicit clamping in the code. -/
theorem C9_channels_in_range (W H : ℕ) (c1s c2s : String)
    (r1 g1 b1 r2 g2 b2 : ℕ)
    (h1 : parseColor c1s = some (r1, g1, b1))
    (h2 : parseColor c2s = some (r2, g2, b2))
    (x y : ℕ) (hx : x < W) (hy : y < H) :
    0 ≤ (pixelAtO (create_gradient_background W H c1s c2s) x y).1 ∧
    (pixelAtO (create_gradient_background W H c1s c2s) x y).1 ≤ 255 ∧
    0 ≤ (pixelAtO (create_gradient_background W H c1s c2s) x y).2.1 ∧
    (pixelAtO (create_gradient_background W H c1s c2s) x y).2.1 ≤ 255 ∧
    0 ≤ (pixelAtO (create_gradient_background W H c1s c2s) x y).2.2 ∧
    (pixelAtO (create_gradient_background W H c1s c2s) x y).2.2 ≤ 255 := by
  obtain ⟨hr1, hg1, hb1⟩ := parseColor_le _ _ _ _ h1
  obtain ⟨hr2, hg2, hb2⟩ := parseColor_le _ _ _ _ h2
  have hr0 := ratio_nonneg x y W H
  have hrlt := ratio_lt_one x y W H hx hy
  rw [pixelAt_create W H x y c1s c2s _ _ h1 h2 hx hy]
  dsimp only [gradPixel]
  have e1 := gradChannel_nonneg_le r1 r2 hr1 hr2 _ hr0 hrlt
  have e2 := gradChannel_nonneg_le g1 g2 hg1 hg2 _ hr0 hrlt
  have e3 := gradChannel_nonneg_le b1 b2 hb1 hb2 _ hr0 hrlt
  exact ⟨e1.1, e1.2, e2.1, e2.2, e3.1, e3.2⟩

/-- Witness for C9 at a concrete 2×2 canvas with the brand colors. -/
theorem C9_channels_in_range_witness :
    0 ≤ (pixelAtO (create_gradient_background 2 2 "#0f0f23" "#06b6d4") 1 0).1 ∧
    (pixelAtO (create_gradient_background 2 2 "#0f0f23" "#06b6d4") 1 0).1 ≤ 255 ∧
    0 ≤ (pixelAtO (create_gradient_background 2 2 "#0f0f23" "#06b6d4") 1 0).2.1 ∧
    (pixelAtO (create_gradient_background 2 2 "#0f0f23" "#06b6d4") 1 0).2.1 ≤ 255 ∧
    0 ≤ (pixelAtO (create_gradient_background 2 2 "#0f0f23" "#06b6d4") 1 0).2.2 ∧
    (pixelAtO (create_gradient_background 2 2 "#0f0f23" "#06b6d4") 1 0).2.2 ≤ 255 :=
  C9_channels_in_range 2 2 "#0f0f23" "#06b6d4" 15 15 35 6 182 212
    (by decide) (by decide) 1 0 (by decide) (by decide)

/-- C10: per channel, the gradient pixel value is monotone along the
diagonal coordinate x + y: non-decreasing when the channel of color2 is at
least that of color1, non-increasing in the opposite case. -/
theorem C10_monotone_diagonal (W H : ℕ) (c1s c2s : String)
    (r1 g1 b1 r2 g2 b2 : ℕ)
    (h1 : parseColor c1s = some (r1, g1, b1))
    (h2 : parseColor c2s = some (r2, g2, b2))
    (x y x' y' : ℕ) (hx : x < W) (hy : y < H) (hx' : x' < W) (hy' : y' < H)
    (hs : x + y ≤ x' + y') :
    (r1 ≤ r2 → (pixelAtO (create_gradient_background W H c1s c2s) x y).1 ≤
      (pixelAtO (create_gradient_background W H c1s c2s) x' y').1) ∧
    (r2 ≤ r1 → (pixelAtO (create_gradient_background W H c1s c2s) x' y').1 ≤
      (pixelAtO (create_gradient_background W H c1s c2s) x y).1) ∧
    (g1 ≤ g2 → (pixelAtO (create_gradient_background W H c1s c2s) x y).2.1 ≤
      (pixelAtO (create_gradient_background W H c1s c2s) x' y').2.1) ∧
    (g2 ≤ g1 → (pixelAtO (create_gradient_background W H c1s c2s) x' y').2.1 ≤
      (pixelAtO (create_gradient_background W H c1s c2s) x y).2.1) ∧
    (b1 ≤ b2 → (pixelAtO (create_gradient_background W H c1s c2s) x y).2.2 ≤
      (pixelAtO (create_gradient_background W H c1s c2s) x' y').2.2) ∧
    (b2 ≤ b1 → (pixelAtO (create_gradient_background W H c1s c2s) x' y').2.2 ≤
      (pixelAtO (create_gradient_background W H c1s c2s) x y).2.2) := by
  have hrr := ratio_mono x y x' y' W H hs
  rw [pixelAt_create W H x y c1s c2s _ _ h1 h2 hx hy,
      pixelAt_create W H x' y' c1s c2s _ _ h1 h2 hx' hy']
  dsimp only [gradPixel]
  exact ⟨fun hc => gradChannel_mono_up r1 r2 hc _ _ hrr,
         fun hc => gradChannel_mono_down r1 r2 hc _ _ hrr,
         fun hc => gradChannel_mono_up g1 g2 hc _ _ hrr,
         fun hc => gradChannel_mono_down g1 g2 hc _ _ hrr,
         fun hc => gradChannel_mono_up b1 b2 hc _ _ hrr,
         fun hc => gradChannel_mono_down b1 b2 hc _ _ hrr⟩

/-- Witness for C10 comparing pixels (0,0) and (1,1) of a 2×2 canvas. -/
theorem C10_monotone_diagonal_witness :
    (15 ≤ 6 → (pixelAtO (create_gradient_background 2 2 "#0f0f23" "#06b6d4") 0 0).1 ≤
      (pixelAtO (create_gradient_background 2 2 "#0f0f23" "#06b6d4") 1 1).1) ∧
    (6 ≤ 15 → (pixelAtO (create_gradient_background 2 2 "#0f0f23" "#06b6d4") 1 1).1 ≤
      (pixelAtO (create_gradient_background 2 2 "#0f0f23" "#06b6d4") 0 0).1) ∧
    (15 ≤ 182 → (pixelAtO (create_gradient_background 2 2 "#0f0f23" "#06b6d4") 0 0).2.1 ≤
      (pixelAtO (create_gradient_background 2 2 "#0f0f23" "#06b6d4") 1 1).2.1) ∧
    (182 ≤ 15 → (pixelAtO (create_gradient_background 2 2 "#0f0f23" "#06b6d4") 1 1).2.1 ≤
      (pixelAtO (create_gradient_background 2 2 "#0f0f23" "#06b6d4") 0 0).2.1) ∧
    (35 ≤ 212 → (pixelAtO (create_gradient_background 2 2 "#0f0f23" "#06b6d4") 0 0).2.2 ≤
      (pixelAtO (create_gradient_background 2 2 "#0f0f23" "#06b6d4") 1 1).2.2) ∧
    (212 ≤ 35 → (pixelAtO (create_gradient_background 2 2 "#0f0f23" "#06b6d4") 1 1).2.2 ≤
      (pixelAtO (create_gradient_background 2 2 "#0f0f23" "#06b6d4") 0 0).2.2) :=
  C10_monotone_diagonal 2 2 "#0f0f23" "#06b6d4" 15 15 35 6 182 212
    (by decide) (by decide) 0 0 1 1 (by decide) (by decide) (by decide) (by decide)
    (by decide)

theorem create_gradient_some (w h : ℕ) (c1s c2s : String) (p1 p2 : ℕ × ℕ × ℕ)
    (h1 : parseColor c1s = some p1) (h2 : parseColor c2s = some p2) :
    create_gradient_background w h c1s c2s = some (gradientCanvas w h p1 p2) := by
  unfold create_gradient_background gradientCanvas
  rw [h1, h2]

theorem create_og_image_ops (fontsOk : Bool) (measure : Font → String → ℕ)
    (img : ComposedImage) (h : create_og_image fontsOk measure = some img) :
    img.ops = og_ops fontsOk measure := by
  unfold create_og_image at h
  obtain ⟨cv, hcv, himg⟩ := Option.map_eq_some'.mp h
  rw [← himg]

theorem create_twitter_image_ops (fontsOk : Bool) (measure : Font → String → ℕ)
    (img : ComposedImage) (h : create_twitter_image fontsOk measure = some img) :
    img.ops = twitter_ops fontsOk measure := by
  unfold create_twitter_image at h
  obtain ⟨cv, hcv, himg⟩ := Option.map_eq_some'.mp h
  rw [← himg]

/-- C4 counterexample: with a measured title width of 1300 (wider than the
canvas), the OG title is positioned at x = (1200 - 1300)/2 = -50, and
x + T = 1250 > 1200 = W, refuting the claimed bound x + T ≤ W. -/
theorem C4_centering_counterexample :
    ∃ img, create_og_image true (fun _ _ => 1300) = some img ∧
      DrawOp.text (((WIDTH : ℚ) - ((1300 : ℕ) : ℚ)) / 2, 150) "JustLayMe" WHITE
        (Font.truetype "/usr/share/fonts/truetype/dejavu/DejaVuSans-Bold.ttf" 90)
        ∈ img.ops ∧
      ¬ (((WIDTH : ℚ) - ((1300 : ℕ) : ℚ)) / 2 + ((1300 : ℕ) : ℚ) ≤ (WIDTH : ℚ)) := by
  have himg : create_og_image true (fun _ _ => 1300) =
      some { base := gradientCanvas WIDTH HEIGHT (15, 15, 35) (6, 182, 212),
             ops := og_ops true (fun _ _ => 1300) } := by
    unfold create_og_image
    rw [create_gradient_some WIDTH HEIGHT DARK_BG ACCENT_CYAN (15, 15, 35) (6, 182, 212)
      (by decide) (by decide)]
    rfl
  refine ⟨_, himg, ?_, ?_⟩
  · exact List.mem_cons_of_mem _ (List.mem_cons_self _ _)
  · norm_num [WIDTH]

/-- C4 (amended): every text entry drawn by create_og_image or
create_twitter_image is placed at x = (W - T)/2 where T is the width
measured under the font actually used, and x + T ≤ W holds whenever
T ≤ W (a text measured wider than the canvas overflows). -/
theorem C4_centering (fontsOk : Bool) (measure : Font → String → ℕ)
    (img : ComposedImage)
    (himg : create_og_image fontsOk measure = some img ∨
            create_twitter_image fontsOk measure = some img)
    (p : ℚ × ℚ) (s fill : String) (f : Font)
    (hop : DrawOp.text p s fill f ∈ img.ops) :
    p.1 = ((WIDTH : ℚ) - ((measure f s : ℕ) : ℚ)) / 2 ∧
    (((measure f s : ℕ) : ℚ) ≤ (WIDTH : ℚ) →
      p.1 + ((measure f s : ℕ) : ℚ) ≤ (WIDTH : ℚ)) := by
  have key : p.1 = ((WIDTH : ℚ) - ((measure f s : ℕ) : ℚ)) / 2 := by
    have hops : img.ops = og_ops fontsOk measure ∨
        img.ops = twitter_ops fontsOk measure := by
      rcases himg with h | h
      · exact Or.inl (create_og_image_ops fontsOk measure img h)
      · exact Or.inr (create_twitter_image_ops fontsOk measure img h)
    rcases hops with h | h
    · rw [h] at hop
      simp only [og_ops, List.mem_cons, List.not_mem_nil, or_false] at hop
      rcases hop with h' | h' | h' | h'
      · exact absurd h' (by simp)
      · obtain ⟨hp, hs', hfill, hf⟩ := by simpa only [DrawOp.text.injEq] using h'
        subst hs'
        subst hf
        simp only [hp]
      · obtain ⟨hp, hs', hfill, hf⟩ := by simpa only [DrawOp.text.injEq] using h'
        subst hs'
        subst hf
        simp only [hp]
      · obtain ⟨hp, hs', hfill, hf⟩ := by simpa only [DrawOp.text.injEq] using h'
        subst hs'
        subst hf
        simp only [hp]
    · rw [h] at hop
      simp only [twitter_ops, List.mem_cons, List.not_mem_nil, or_false] at hop
      rcases hop with h' | h' | h' | h'
      · exact absurd h' (by simp)
      · obtain ⟨hp, hs', hfill, hf⟩ := by simpa only [DrawOp.text.injEq] using h'
        subst hs'
        subst hf
        simp only [hp]
      · obtain ⟨hp, hs', hfill, hf⟩ := by simpa only [DrawOp.text.injEq] using h'
        subst hs'
        subst hf
        simp only [hp]
      · obtain ⟨hp, hs', hfill, hf⟩ := by simpa only [DrawOp.text.injEq] using h'
        subst hs'
        subst hf
        simp only [hp]
  refine ⟨key, fun hT => ?_⟩
  rw [key]
  linarith

/-- Witness for C4 (amended): the OG title entry with every string measured
at width 100. -/
theorem C4_centering_witness :
    ((((WIDTH : ℚ) - ((100 : ℕ) : ℚ)) / 2, (150 : ℚ)) : ℚ × ℚ).1 =
      ((WIDTH : ℚ) - ((100 : ℕ) : ℚ)) / 2 ∧
    (((100 : ℕ) : ℚ) ≤ (WIDTH : ℚ) →
      ((((WIDTH : ℚ) - ((100 : ℕ) : ℚ)) / 2, (150 : ℚ)) : ℚ × ℚ).1 +
        ((100 : ℕ) : ℚ) ≤ (WIDTH : ℚ)) := by
  have himg : create_og_image true (fun _ _ => 100) =
      some { base := gradientCanvas WIDTH HEIGHT (15, 15, 35) (6, 182, 212),
             ops := og_ops true (fun _ _ => 100) } := by
    unfold create_og_image
    rw [create_gradient_some WIDTH HEIGHT DARK_BG ACCENT_CYAN (15, 15, 35) (6, 182, 212)
      (by decide) (by decide)]
    rfl
  exact C4_centering true (fun _ _ => 100) _ (Or.inl himg)
    (((WIDTH : ℚ) - ((100 : ℕ) : ℚ)) / 2, 150) "JustLayMe" WHITE
    (Font.truetype "/usr/share/fonts/truetype/dejavu/DejaVuSans-Bold.ttf" 90)
    (List.mem_cons_of_mem _ (List.mem_cons_self _ _))

/-- C5: for both images, whether or not the truetype fonts load, generation
succeeds (no crash) and the output canvas dimensions are exactly 1200×630;
the font flag only changes which fonts appear in the drawing calls. -/
theorem C5_dimensions (fontsOk : Bool) (measure : Font → String → ℕ) :
    ∃ og tw, create_og_image fontsOk measure = some og ∧
      create_twitter_image fontsOk measure = some tw ∧
      og.base.width = 1200 ∧ og.base.height = 630 ∧
      tw.base.width = 1200 ∧ tw.base.height = 630 := by
  have hog : create_og_image fontsOk measure =
      some { base := gradientCanvas WIDTH HEIGHT (15, 15, 35) (6, 182, 212),
             ops := og_ops fontsOk measure } := by
    unfold create_og_image
    rw [create_gradient_some WIDTH HEIGHT DARK_BG ACCENT_CYAN (15, 15, 35) (6, 182, 212)
      (by decide) (by decide)]
    rfl
  have htw : create_twitter_image fontsOk measure =
      some { base := gradientCanvas WIDTH HEIGHT (15, 15, 35) (139, 92, 246),
             ops := twitter_ops fontsOk measure } := by
    unfold create_twitter_image
    rw [create_gradient_some WIDTH HEIGHT DARK_BG ACCENT_PURPLE (15, 15, 35) (139, 92, 246)
      (by decide) (by decide)]
    rfl
  exact ⟨_, _, hog, htw, rfl, rfl, rfl, rfl⟩

/-- C6: without PIL the program prints remediation instructions (including
the pip install hint) and exits with status 1, with no rendering and no file
output; with PIL it exits normally, printing progress and the HTML usage
hint. -/
theorem C6_import_error_behavior :
    (program false).exitCode = 1 ∧
    Event.msg "Error: PIL (Pillow) is not installed." ∈ (program false).events ∧
    Event.msg "  pip install Pillow" ∈ (program false).events ∧
    (program false).events.filter isSave = [] ∧
    (program false).events.filter isRender = [] ∧
    (program true).exitCode = 0 ∧
    Event.msg "Generating OG and Twitter Card images..." ∈ (program true).events ∧
    Event.msg "\nAdd to your HTML head:" ∈ (program true).events := by
  decide

/-- C7: with PIL present the run saves exactly two files, the OG image then
the Twitter image, and the OG image is generated and saved strictly before
Twitter generation begins. -/
theorem C7_two_files_in_order :
    (program true).events.filter isSave =
      [Event.saveFile og_path "JPEG" 90, Event.saveFile twitter_path "JPEG" 90] ∧
    (program true).events.indexOf (Event.generateImage "og") <
      (program true).events.indexOf (Event.saveFile og_path "JPEG" 90) ∧
    (program true).events.indexOf (Event.saveFile og_path "JPEG" 90) <
      (program true).events.indexOf (Event.generateImage "twitter") ∧
    (program true).events.indexOf (Event.generateImage "twitter") <
      (program true).events.indexOf (Event.saveFile twitter_path "JPEG" 90) := by
  decide

end OGImages
